import Mathlib

/-!
Verification of the remediation change-tracking engine (Change Journal,
Backup Store, Undo Executor, Fixer Dispatch) of the agentic-coding-flywheel
setup repository.

The engine itself lives in `scripts/lib/autofix.sh` and
`scripts/lib/doctor_fix.sh`, which are not part of the source snapshot;
only their unit tests (`tests/unit/test_autofix.sh`,
`tests/unit/test_doctor_fix.sh`) are. The definitions below are therefore
modelled from the specification, with the observable behaviour pinned down
by those unit tests wherever they speak.
-/

namespace Acfs

/-! ## SHA-256 digest

Modelled from the spec: the Change Journal's "deterministic digest over the
record's canonical content". The unit test `test_record_checksum` requires a
64-hex-character output, i.e. a SHA-256 digest; we model the standard
SHA-256 function over the bytes of the input string (arithmetic on `Nat`
with explicit reduction modulo `2^32`). -/

/-- Reduce a natural number to a 32-bit word. -/
def w32 (n : Nat) : Nat := n % 4294967296

/-- Rotate a 32-bit word right by `k` bits. -/
def rotr32 (k x : Nat) : Nat :=
  w32 (Nat.lor (Nat.shiftRight x k) (Nat.shiftLeft x (32 - k)))

/-- Bitwise complement on 32 bits. -/
def not32 (x : Nat) : Nat := Nat.xor x 4294967295

/-- SHA-256 `Ch` function. -/
def sha_ch (x y z : Nat) : Nat := Nat.xor (Nat.land x y) (Nat.land (not32 x) z)

/-- SHA-256 `Maj` function. -/
def sha_maj (x y z : Nat) : Nat :=
  Nat.xor (Nat.xor (Nat.land x y) (Nat.land x z)) (Nat.land y z)

/-- SHA-256 big sigma-0. -/
def bsig0 (x : Nat) : Nat := Nat.xor (Nat.xor (rotr32 2 x) (rotr32 13 x)) (rotr32 22 x)

/-- SHA-256 big sigma-1. -/
def bsig1 (x : Nat) : Nat := Nat.xor (Nat.xor (rotr32 6 x) (rotr32 11 x)) (rotr32 25 x)

/-- SHA-256 small sigma-0. -/
def ssig0 (x : Nat) : Nat :=
  Nat.xor (Nat.xor (rotr32 7 x) (rotr32 18 x)) (Nat.shiftRight x 3)

/-- SHA-256 small sigma-1. -/
def ssig1 (x : Nat) : Nat :=
  Nat.xor (Nat.xor (rotr32 17 x) (rotr32 19 x)) (Nat.shiftRight x 10)

/-- The 64 SHA-256 round constants (FIPS 180-4, written in decimal). -/
def shaK : List Nat :=
  [1116352408, 1899447441, 3049323471, 3921009573, 961987163, 1508970993,
   2453635748, 2870763221, 3624381080, 310598401, 607225278, 1426881987,
   1925078388, 2162078206, 2614888103, 3248222580, 3835390401, 4022224774,
   264347078, 604807628, 770255983, 1249150122, 1555081692, 1996064986,
   2554220882, 2821834349, 2952996808, 3210313671, 3336571891, 3584528711,
   113926993, 338241895, 666307205, 773529912, 1294757372, 1396182291,
   1695183700, 1986661051, 2177026350, 2456956037, 2730485921, 2820302411,
   3259730800, 3345764771, 3516065817, 3600352804, 4094571909, 275423344,
   430227734, 506948616, 659060556, 883997877, 958139571, 1322822218,
   1537002063, 1747873779, 1955562222, 2024104815, 2227730452, 2361852424,
   2428436474, 2756734187, 3204031479, 3329325298]

/-- The eight 32-bit words of a SHA-256 chaining state. -/
structure Hash8 where
  a : Nat
  b : Nat
  c : Nat
  d : Nat
  e : Nat
  f : Nat
  g : Nat
  h : Nat
deriving DecidableEq, Repr

/-- SHA-256 initial hash value (FIPS 180-4, written in decimal). -/
def shaInit : Hash8 :=
  ⟨1779033703, 3144134277, 1013904242, 2773480762,
   1359893119, 2600822924, 528734635, 1541459225⟩

/-- Big-endian 8-byte encoding of a number (used for the length suffix). -/
def be64 (n : Nat) : List Nat :=
  [56, 48, 40, 32, 24, 16, 8, 0].map (fun s => (Nat.shiftRight n s) % 256)

/-- SHA-256 message padding: append `0x80`, zero bytes up to 56 mod 64, then
the 64-bit big-endian bit length. -/
def shaPad (msg : List Nat) : List Nat :=
  let z := (119 - (msg.length % 64)) % 64
  msg ++ 128 :: List.replicate z 0 ++ be64 (8 * msg.length)

/-- Group bytes into big-endian 32-bit words. -/
def bytesToWords : List Nat → List Nat
  | b0 :: b1 :: b2 :: b3 :: rest =>
      (((b0 * 256 + b1) * 256 + b2) * 256 + b3) :: bytesToWords rest
  | _ => []

/-- Group a word list into 16-word blocks (the padded message is always a
whole number of blocks). -/
def chunks16 : List Nat → List (List Nat)
  | a0 :: a1 :: a2 :: a3 :: a4 :: a5 :: a6 :: a7 ::
    a8 :: a9 :: a10 :: a11 :: a12 :: a13 :: a14 :: a15 :: rest =>
      [a0, a1, a2, a3, a4, a5, a6, a7, a8, a9, a10, a11, a12, a13, a14, a15] :: chunks16 rest
  | _ => []

/-- Extend a 16-word block to the 64-word message schedule. -/
def extendSchedule (w : List Nat) : List Nat :=
  (List.range 48).foldl
    (fun acc _ =>
      let n := acc.length
      acc ++ [w32 (ssig1 (acc.getD (n - 2) 0) + acc.getD (n - 7) 0 +
                   ssig0 (acc.getD (n - 15) 0) + acc.getD (n - 16) 0)])
    w

/-- One SHA-256 compression round. -/
def shaRound (w : List Nat) (s : Hash8) (t : Nat) : Hash8 :=
  let t1 := w32 (s.h + bsig1 s.e + sha_ch s.e s.f s.g + shaK.getD t 0 + w.getD t 0)
  let t2 := w32 (bsig0 s.a + sha_maj s.a s.b s.c)
  ⟨w32 (t1 + t2), s.a, s.b, s.c, w32 (s.d + t1), s.e, s.f, s.g⟩

/-- SHA-256 compression of one block into the chaining state. -/
def shaCompress (s : Hash8) (block : List Nat) : Hash8 :=
  let w := extendSchedule block
  let r := (List.range 64).foldl (shaRound w) s
  ⟨w32 (s.a + r.a), w32 (s.b + r.b), w32 (s.c + r.c), w32 (s.d + r.d),
   w32 (s.e + r.e), w32 (s.f + r.f), w32 (s.g + r.g), w32 (s.h + r.h)⟩

/-- SHA-256 of a byte sequence. -/
def sha256 (msg : List Nat) : Hash8 :=
  (chunks16 (bytesToWords (shaPad msg))).foldl shaCompress shaInit

/-- Lower-case hexadecimal digit. -/
def hexDigit (n : Nat) : Char :=
  match n with
  | 0 => '0' | 1 => '1' | 2 => '2' | 3 => '3' | 4 => '4' | 5 => '5' | 6 => '6' | 7 => '7'
  | 8 => '8' | 9 => '9' | 10 => 'a' | 11 => 'b' | 12 => 'c' | 13 => 'd' | 14 => 'e' | _ => 'f'

/-- Exactly `w` hexadecimal digits of `n`, most significant first. -/
def toHexPad : Nat → Nat → List Char
  | _, 0 => []
  | n, w + 1 => toHexPad (n / 16) w ++ [hexDigit (n % 16)]

/-- Is a character a lower-case hexadecimal digit? -/
def isHexChar (c : Char) : Bool := "0123456789abcdef".data.contains c

/-- Bytes of a string. The engine's inputs are ASCII, where the code points
coincide with the UTF-8 bytes the shell tool hashes. -/
def strBytes (s : String) : List Nat := s.data.map Char.toNat

/-- Hex rendering of a SHA-256 digest: 8 words of 8 hex digits each. -/
def sha256hex (s : String) : String :=
  let d := sha256 (strBytes s)
  String.mk (toHexPad d.a 8 ++ toHexPad d.b 8 ++ toHexPad d.c 8 ++ toHexPad d.d 8 ++
             toHexPad d.e 8 ++ toHexPad d.f 8 ++ toHexPad d.g 8 ++ toHexPad d.h 8)

/-- Modelled from the spec: `compute_record_checksum` in
`scripts/lib/autofix.sh` (absent from the snapshot) computes the
"deterministic digest over the record's canonical content"; per
`test_record_checksum` it is a 64-hex-character (SHA-256) digest of the
record text. -/
def compute_record_checksum (content : String) : String := sha256hex content

/-! ## Filesystem model

A state directory and a user home are modelled as association lists: regular
files map a path to their list of lines, symlinks map a link path to its
target. `backupFail` holds the paths on which an attempted backup copy fails
(modelling I/O errors such as permission or disk-full failures, which the
spec's "Backup failure" taxonomy requires the engine to survive). -/

/-- Association-list lookup by path. -/
def alookup {α : Type} (p : String) : List (String × α) → Option α
  | [] => none
  | (k, v) :: rest => if k == p then some v else alookup p rest

/-- Remove all entries for a path. -/
def aremove {α : Type} (p : String) (l : List (String × α)) : List (String × α) :=
  l.filter (fun e => !(e.1 == p))

/-- The modelled filesystem. -/
structure Fs where
  files : List (String × List String)
  links : List (String × String)
  backupFail : List String
deriving DecidableEq, Repr

/-- File content at a path, if the file exists. -/
def fsLookup (fs : Fs) (p : String) : Option (List String) := alookup p fs.files

/-- Write-or-replace a file's full contents (the Atomic File Writer's
`write_atomic`; atomicity is implicit in the model, where every write is a
single step). -/
def fsWrite (fs : Fs) (p : String) (c : List String) : Fs :=
  { fs with files := (p, c) :: aremove p fs.files }

/-- Delete a file. -/
def fsDelete (fs : Fs) (p : String) : Fs :=
  { fs with files := aremove p fs.files }

/-- Target of a symlink, if the link exists. -/
def fsLinkLookup (fs : Fs) (p : String) : Option String := alookup p fs.links

/-- Create a symlink. -/
def fsAddLink (fs : Fs) (link target : String) : Fs :=
  { fs with links := (link, target) :: aremove link fs.links }

/-! ## String helpers (kernel-friendly, over character lists) -/

/-- Does `p` occur as a prefix of `l`? -/
def prefixOf : List Char → List Char → Bool
  | [], _ => true
  | _ :: _, [] => false
  | a :: as, b :: bs => a == b && prefixOf as bs

/-- Does `pat` occur as a contiguous substring of `l`? -/
def containsSub (l pat : List Char) : Bool :=
  match l with
  | [] => prefixOf pat []
  | _ :: rest => prefixOf pat l || containsSub rest pat

/-- Split a character list on a separator character (the separator is not
kept; `n+1` pieces for `n` separators). -/
def splitOnChar (sep : Char) (cs : List Char) : List (List Char) :=
  cs.foldr
    (fun c acc =>
      match acc with
      | [] => [[c]]
      | a :: rest => if c == sep then [] :: a :: rest else (c :: a) :: rest)
    [[]]

/-- Split a string on a separator character. -/
def splitStr (sep : Char) (s : String) : List String :=
  (splitOnChar sep s.data).map String.mk

/-- The single-quote character of shell quoting. -/
def squote : Char := Char.ofNat 39

/-- Strip one layer of surrounding single quotes, if present. -/
def stripQuotes (cs : List Char) : List Char :=
  match cs with
  | q :: rest =>
      if q == squote && rest.getLast? == some squote then rest.dropLast else cs
  | [] => []

/-! ## Backup Store -/

/-- One file snapshot: `source_path`, `backup_path`, `content_checksum`
(the `created_at` timestamp carries no verified behaviour and is omitted). -/
structure Backup where
  source : String
  backupPath : String
  checksum : String
deriving DecidableEq, Repr

/-- Join lines back into file text (for checksumming a file's content). -/
def joinLines (ls : List String) : String := String.intercalate "\n" ls

/-- Directory holding backup copies. -/
def backupsDir : String := ".acfs/state/backups/"

/-- Modelled from the spec: `create_backup` in `scripts/lib/autofix.sh`
(absent from the snapshot). A nonexistent source yields an empty/absent
result without error (`test_backup_nonexistent_file`); otherwise the file is
copied to a backup location derived from the label, its checksum recorded,
and a Backup Record returned; an I/O failure while copying an existing file
surfaces as an error. -/
def create_backup (fs : Fs) (src label : String) : Except String (Option Backup × Fs) :=
  match fsLookup fs src with
  | none => .ok (none, fs)
  | some content =>
      if fs.backupFail.contains src then
        .error ("backup failed: " ++ src)
      else
        let bp := backupsDir ++ label
        .ok (some { source := src, backupPath := bp,
                    checksum := compute_record_checksum (joinLines content) },
             fsWrite fs bp content)

/-! ## Change Records and the Change Journal -/

/-- One remediation action taken (spec §3). `id` is the numeric part of the
`chg_%04d` identifier. -/
structure ChangeRecord where
  id : Nat
  category : String
  description : String
  undo_command : String
  destructive : Bool
  severity : String
  pre_state : String
  post_state : String
  backups : List Backup
  timestamp : String
  checksum : String
deriving DecidableEq, Repr

/-- Zero-padded rendering of a change id's numeric part (`%04d`). -/
def pad4 (n : Nat) : String :=
  let s := toString n
  if s.length < 4 then String.mk (List.replicate (4 - s.length) '0' ++ s.data) else s

/-- The `chg_%04d` identifier format. -/
def formatChangeId (n : Nat) : String := "chg_" ++ pad4 n

/-- Parse a digit string (leading zeros allowed). -/
def parseDigits : List Char → Option Nat
  | [] => none
  | cs => cs.foldl (fun acc c =>
      match acc with
      | none => none
      | some n => if c.isDigit then some (n * 10 + (c.toNat - 48)) else none)
      (some 0)

/-- Parse a `chg_%04d` identifier back to its numeric part. -/
def parseChangeId (s : String) : Option Nat :=
  if prefixOf ("chg_").data s.data then parseDigits (s.data.drop 4) else none

/-- Serialize the backup list of a record (`;`-joined `src,backup,checksum`
triples). -/
def serializeBackups (bs : List Backup) : String :=
  String.intercalate ";" (bs.map (fun b => b.source ++ "," ++ b.backupPath ++ "," ++ b.checksum))

/-- Parse one serialized backup triple. -/
def parseBackup (s : String) : Option Backup :=
  match splitStr ',' s with
  | [a, b, c] => some { source := a, backupPath := b, checksum := c }
  | _ => none

/-- Parse a serialized backup list. -/
def parseBackups (s : String) : Option (List Backup) :=
  if s == "" then some [] else
    (splitStr ';' s).foldr (fun p acc =>
      match parseBackup p, acc with
      | some b, some bs => some (b :: bs)
      | _, _ => none) (some [])

/-- The canonical content of a Change Record: its ten data fields in the
journal line's field order, checksum excluded. The record's checksum is the
digest of this string. -/
def canonicalContent (r : ChangeRecord) : String :=
  formatChangeId r.id ++ "|" ++ r.category ++ "|" ++ r.description ++ "|" ++
  r.undo_command ++ "|" ++ (if r.destructive then "true" else "false") ++ "|" ++
  r.severity ++ "|" ++ r.pre_state ++ "|" ++ r.post_state ++ "|" ++
  serializeBackups r.backups ++ "|" ++ r.timestamp

/-- One journal line: the canonical content followed by the record's stored
checksum (spec §6: fields `id, category, description, undo_command,
destructive, severity, pre_state, post_state, backups, timestamp,
checksum`). -/
def serializeRecord (r : ChangeRecord) : String :=
  canonicalContent r ++ "|" ++ r.checksum

/-- Parse one journal line into a Change Record; `none` when the line is
damaged. -/
def parseRecord (s : String) : Option ChangeRecord :=
  match splitStr '|' s with
  | [i, cat, desc, undo, dest, sev, pre, post, bks, ts, ck] =>
      match parseChangeId i, parseBackups bks with
      | some n, some bs =>
          if dest == "true" ∨ dest == "false" then
            some { id := n, category := cat, description := desc, undo_command := undo,
                   destructive := dest == "true", severity := sev, pre_state := pre,
                   post_state := post, backups := bs, timestamp := ts, checksum := ck }
          else none
      | _, _ => none
  | _ => none

/-- A record is intact when its stored checksum equals a freshly recomputed
digest of its own canonical content. -/
def recordValid (r : ChangeRecord) : Bool :=
  r.checksum == compute_record_checksum (canonicalContent r)

/-- A journal line is valid when it parses and its record is intact. -/
def lineValid (l : String) : Bool :=
  match parseRecord l with
  | some r => recordValid r
  | none => false

/-- Modelled from the spec: `verify_state_integrity` reads every line; each
must parse as a valid Change Record whose stored checksum matches a
recomputation; returns pass/fail and mutates nothing. -/
def verify_state_integrity (journal : List String) : Bool := journal.all lineValid

/-- Modelled from the spec: `repair_state_files` drops lines that fail to
parse or fail checksum verification and rewrites the journal atomically with
only the valid lines, preserving their original order and ids. -/
def repair_state_files (journal : List String) : List String := journal.filter lineValid

/-- The ids already allocated in a journal. -/
def journalIds (journal : List String) : List Nat :=
  journal.filterMap (fun l => (parseRecord l).map ChangeRecord.id)

/-- Next sequential change id: max existing id + 1, defaulting to 1 when the
journal is empty. -/
def nextChangeId (journal : List String) : Nat :=
  (journalIds journal).foldl max 0 + 1

/-- Modelled from the spec: `record_change` allocates the next sequential
id, builds a Change Record, computes its checksum, appends it via the Atomic
File Writer, and returns the new id. The timestamp is modelled as a fixed
string, carrying no verified behaviour. -/
def record_change (category description undoCommand : String) (destructive : Bool)
    (severity preState postState : String) (bks : List Backup)
    (journal : List String) : String × List String :=
  let n := nextChangeId journal
  let r0 : ChangeRecord :=
    { id := n, category := category, description := description,
      undo_command := undoCommand, destructive := destructive, severity := severity,
      pre_state := preState, post_state := postState, backups := bks,
      timestamp := "0", checksum := "" }
  let r := { r0 with checksum := compute_record_checksum (canonicalContent r0) }
  (formatChangeId n, journal ++ [serializeRecord r])

/-! ## Undo Executor -/

/-- Modelled from the spec: execution of a recorded `undo_command` by the
shell. The commands the engine records for file-removal undos have the shape
`rm -f <path>` (with the path possibly single-quoted); such a command deletes
the file, and any other command is outside the modelled fragment and leaves
the filesystem unchanged. -/
def execCommand (cmd : String) (fs : Fs) : Fs :=
  if prefixOf ("rm -f ").data cmd.data then
    fsDelete fs (String.mk (stripQuotes (cmd.data.drop 6)))
  else fs

/-- Restore one backup's content over the current file at its source path. -/
def restoreBackupFile (fs : Fs) (b : Backup) : Fs :=
  match fsLookup fs b.backupPath with
  | some content => fsWrite fs b.source content
  | none => fs

/-- Look a Change Record up in the journal by its formatted id. -/
def lookupRecord (journal : List String) (idStr : String) : Option ChangeRecord :=
  (journal.filterMap parseRecord).find? (fun r => formatChangeId r.id == idStr)

/-- Modelled from the spec: `undo_change id restoreBackup runUndoCommand`
looks the Change Record up by id (error if absent); if `restoreBackup` is
true it restores each associated backup over the current file at its source
path; if `runUndoCommand` is true and `undo_command` is non-empty, it
executes the command. -/
def undo_change (idStr : String) ( restoreBackup runUndoCommand : Bool) (fs : Fs)
    (journal : List String) : Bool × Fs :=
  match lookupRecord journal idStr with
  | none => (false, fs)
  | some r =>
      let fs1 := if restoreBackup then r.backups.foldl restoreBackupFile fs else fs
      let fs2 := if runUndoCommand && !(r.undo_command == "") then execCommand r.undo_command fs1
                 else fs1
      (true, fs2)

/-! ## Fixer Dispatch (`scripts/lib/doctor_fix.sh`)

The doctor state mirrors the script's globals: the `FIX_*` counters, the
`FIXES_*` report lists, and the `DOCTOR_FIX_DRY_RUN` mode flag, together with
the filesystem, the journal and the session's backup records. -/

/-- State of one `doctor --fix` run. -/
structure DoctorState where
  fs : Fs
  journal : List String
  backups : List Backup
  fixApplied : Nat
  fixSkipped : Nat
  fixFailed : Nat
  fixManual : Nat
  fixesApplied : List String
  fixesDryRun : List String
  fixesManual : List String
  dryRun : Bool
deriving DecidableEq, Repr

/-- Path of the shell startup file the fixers edit. -/
def zshrcPath : String := ".zshrc"

/-- Path of the ACFS zsh configuration sourced from `.zshrc`. -/
def acfsZshrcPath : String := ".acfs/zsh/acfs.zshrc"

/-- The grep pattern guarding `fix_path_ordering`. -/
def pathMarker : String := "# ACFS PATH ordering"

/-- The marker line `fix_path_ordering` appends. -/
def pathMarkerLine : String := "# ACFS PATH ordering (added by doctor --fix)"

/-- The PATH export line `fix_path_ordering` appends. -/
def pathExportLine : String := "export PATH=\"$HOME/.local/bin:$PATH\""

/-- The source line `fix_acfs_sourcing` appends (and greps for). -/
def acfsSourceLine : String := "source ~/.acfs/zsh/acfs.zshrc"

/-- The marker line `fix_acfs_sourcing` appends. -/
def acfsMarkerLine : String := "# ACFS configuration (added by doctor --fix)"

/-- `file_contains_line`: does any line of the file contain the pattern as a
substring (grep semantics)? A missing file contains nothing. -/
def file_contains_line (fs : Fs) (p pat : String) : Bool :=
  match fsLookup fs p with
  | some content => content.any (fun l => containsSub l.data pat.data)
  | none => false

/-- Outcome of one fixer invocation: success flag and updated state. An
error leaves the state untouched. -/
abbrev FixOut := Bool × DoctorState

/-- The common applied-fix bookkeeping: write the mutated filesystem, append
the Change Record, retain the backup, bump `FIX_APPLIED` and report. -/
def applyFix (st : DoctorState) (checkId : String) (fs2 : Fs) (b : Option Backup)
    (category description undoCmd : String) : DoctorState :=
  let rec2 := record_change category description undoCmd false "info" "" "" b.toList st.journal
  { st with fs := fs2, journal := rec2.2, backups := st.backups ++ b.toList,
            fixApplied := st.fixApplied + 1, fixesApplied := st.fixesApplied ++ [checkId] }

/-- Modelled from the spec: `fix_path_ordering` — guard: `.zshrc` already
carries the ACFS PATH marker → no-op; dry-run: record one preview entry and
touch nothing; otherwise back `.zshrc` up, append the marker and PATH export
lines, and record the change. -/
def fix_path_ordering (checkId : String) (st : DoctorState) : FixOut :=
  if file_contains_line st.fs zshrcPath pathMarker then (true, st)
  else if st.dryRun then
    (true, { st with fixesDryRun := st.fixesDryRun ++ [checkId] })
  else
    match create_backup st.fs zshrcPath "zshrc" with
    | .error _ => (false, st)
    | .ok (b, fs1) =>
        let content := (fsLookup st.fs zshrcPath).getD []
        let fs2 := fsWrite fs1 zshrcPath (content ++ ["", pathMarkerLine, pathExportLine])
        (true, applyFix st checkId fs2 b "path_ordering" "Ensure ~/.local/bin precedes PATH"
          "" )

/-- Modelled from the spec: `fix_config_copy` — guard: the destination
already exists → no-op, never overwritten; precondition: the source must
exist, else error; dry-run: one preview entry; otherwise back the
destination up, copy source to destination, and record the change. -/
def fix_config_copy (checkId src dest : String) (st : DoctorState) : FixOut :=
  if (fsLookup st.fs dest).isSome then (true, st)
  else
    match fsLookup st.fs src with
    | none => (false, st)
    | some content =>
        if st.dryRun then
          (true, { st with fixesDryRun := st.fixesDryRun ++ [checkId] })
        else
          match create_backup st.fs dest "config" with
          | .error _ => (false, st)
          | .ok (b, fs1) =>
              (true, applyFix st checkId (fsWrite fs1 dest content) b "config_copy"
                ("Copy " ++ src ++ " to " ++ dest) ("rm -f " ++ dest))

/-- Modelled from the spec: `fix_symlink_create` — guard: the link already
exists → no-op; precondition: the target binary must exist, else error;
dry-run: one preview entry; otherwise create the symlink and record the
change. -/
def fix_symlink_create (checkId target link : String) (st : DoctorState) : FixOut :=
  if (fsLinkLookup st.fs link).isSome then (true, st)
  else
    match fsLookup st.fs target with
    | none => (false, st)
    | some _ =>
        if st.dryRun then
          (true, { st with fixesDryRun := st.fixesDryRun ++ [checkId] })
        else
          (true, applyFix st checkId (fsAddLink st.fs link target) none "symlink_create"
            ("Symlink " ++ link ++ " to " ++ target) ("rm -f " ++ link))

/-- Modelled from the spec: `fix_acfs_sourcing` — guard: `.zshrc` already
sources the ACFS configuration → no-op; precondition: `acfs.zshrc` must
exist, else error; dry-run: one preview entry; otherwise back `.zshrc` up,
append the marker and source lines, and record the change. -/
def fix_acfs_sourcing (checkId : String) (st : DoctorState) : FixOut :=
  if file_contains_line st.fs zshrcPath acfsSourceLine then (true, st)
  else
    match fsLookup st.fs acfsZshrcPath with
    | none => (false, st)
    | some _ =>
        if st.dryRun then
          (true, { st with fixesDryRun := st.fixesDryRun ++ [checkId] })
        else
          match create_backup st.fs zshrcPath "zshrc" with
          | .error _ => (false, st)
          | .ok (b, fs1) =>
              let content := (fsLookup st.fs zshrcPath).getD []
              let fs2 := fsWrite fs1 zshrcPath (content ++ ["", acfsMarkerLine, acfsSourceLine])
              (true, applyFix st checkId fs2 b "acfs_sourcing" "Source acfs.zshrc from .zshrc"
                "")

/-- Fold a fixer's outcome into the dispatch counters: a fixer-local error
is caught and counted in `FIX_FAILED` rather than aborting the run. -/
def runCounted (f : DoctorState → FixOut) (st : DoctorState) : DoctorState :=
  let r := f st
  if r.1 then r.2 else { r.2 with fixFailed := r.2.fixFailed + 1 }

/-- The check identifiers registered for a manual fix (with an operator
hint) rather than an automated Fixer. -/
def manualChecks : List String := ["shell.ohmyzsh"]

/-- Modelled from the spec: `dispatch_fix checkId status hint` — `pass` and
`skip` are terminal with no action; failing checks route by check-id
namespace prefix to a registered Fixer; failing checks registered as
manual-only record a manual-required entry carrying the hint and bump
`FIX_MANUAL`; unrecognized identifiers bump `FIX_SKIPPED` (per
`test_dispatch_fix_unknown_skipped`), never the applied counter. -/
def dispatch_fix (checkId status hint : String) (st : DoctorState) : DoctorState :=
  if status == "pass" || status == "skip" then st
  else if prefixOf ("path.").data checkId.data then runCounted (fix_path_ordering checkId) st
  else if checkId == "shell.acfs_sourced" then runCounted (fix_acfs_sourcing checkId) st
  else if manualChecks.contains checkId then
    { st with fixManual := st.fixManual + 1,
              fixesManual := st.fixesManual ++ [checkId ++ "|" ++ hint] }
  else { st with fixSkipped := st.fixSkipped + 1 }

/-- The dispatch loop over a stream of `(checkId, status, hint)` tuples. -/
def dispatch_all (checks : List (String × String × String)) (st : DoctorState) : DoctorState :=
  checks.foldl (fun s c => dispatch_fix c.1 c.2.1 c.2.2 s) st

/-! ## Concrete scenario inputs

Concrete journals, filesystems and doctor states replaying the unit tests'
scenarios; used to instantiate the general theorems below. -/

/-- First sequential change of the three-change scenario. -/
def rcS1 : String × List String := record_change "cat1" "First" "echo 1" false "info" "" "" [] []

/-- Second sequential change. -/
def rcS2 : String × List String := record_change "cat2" "Second" "echo 2" false "info" "" "" [] rcS1.2

/-- Third sequential change. -/
def rcS3 : String × List String := record_change "cat3" "Third" "echo 3" false "info" "" "" [] rcS2.2

/-- A two-line valid journal. -/
def wValid2 : List String :=
  (record_change "t" "test2" "" false "info" "" "" []
    (record_change "t" "test1" "" false "info" "" "" [] []).2).2

/-- A journal with a corrupted middle line between two valid lines
(`test_state_repair`). -/
def wJournal : List String := wValid2.take 1 ++ ["invalid json line"] ++ wValid2.drop 1

/-- A concrete Change Record. -/
def wRec : ChangeRecord :=
  { id := 1, category := "test", description := "test", undo_command := "",
    destructive := false, severity := "info", pre_state := "", post_state := "",
    backups := [], timestamp := "0", checksum := "" }

/-- The record content hashed by `test_record_checksum`. -/
def checksumTestA : String := "\x7b\"id\":\"chg_001\",\"description\":\"test\"\x7d"

/-- The differing record content hashed by `test_record_checksum`. -/
def checksumTestB : String := "\x7b\"id\":\"chg_002\",\"description\":\"test\"\x7d"

/-- A home directory with a plain `.zshrc` and nothing else. -/
def wFs : Fs := { files := [(zshrcPath, ["# Initial zshrc"])], links := [], backupFail := [] }

/-- A fresh doctor state over `wFs`. -/
def wState : DoctorState :=
  { fs := wFs, journal := [], backups := [], fixApplied := 0, fixSkipped := 0,
    fixFailed := 0, fixManual := 0, fixesApplied := [], fixesDryRun := [],
    fixesManual := [], dryRun := false }

/-- A home directory where every fixer's sources exist: a `.zshrc`, a config
source file, a tool binary, the ACFS zsh config, and a destination file
holding unrelated content. -/
def wFsFull : Fs :=
  { files := [(zshrcPath, ["# Initial zshrc"]), ("source_config.txt", ["config content"]),
              (".cargo/bin/test_tool", ["#!/bin/bash"]), (acfsZshrcPath, ["# ACFS config"]),
              ("dest_existing.txt", ["existing content"])],
    links := [], backupFail := [] }

/-- A fresh doctor state over `wFsFull`. -/
def wStateFull : DoctorState := { wState with fs := wFsFull }

/-- The full state in dry-run mode. -/
def wStateFullDry : DoctorState := { wStateFull with dryRun := true }

/-- A state whose `.zshrc` exists but cannot be backed up (I/O failure). -/
def wStateBackupFail : DoctorState :=
  { wState with fs := { wFs with backupFail := [zshrcPath] } }

/-- A journal holding one change whose undo command removes a marker file. -/
def wUndoJournal : List String :=
  (record_change "test" "Test change" "rm -f \x27marker.txt\x27" false "info" "" "" [] []).2

/-- A filesystem holding the marker file the undo command removes. -/
def wUndoFs : Fs := { files := [("marker.txt", ["x"])], links := [], backupFail := [] }

/-- The marker-removing Change Record before checksumming. -/
def wUndoRec0 : ChangeRecord :=
  { id := 1, category := "test", description := "Test change",
    undo_command := "rm -f \x27marker.txt\x27", destructive := false, severity := "info",
    pre_state := "", post_state := "", backups := [], timestamp := "0", checksum := "" }

/-- The marker-removing Change Record as persisted (checksum filled in). -/
def wUndoRec : ChangeRecord :=
  { wUndoRec0 with checksum := compute_record_checksum (canonicalContent wUndoRec0) }

end Acfs

namespace Acfs

set_option maxRecDepth 200000

/-! # Helper lemmas -/

/-- Every output character of `hexDigit` is a hexadecimal digit. -/
theorem hexDigit_hex (n : Nat) : isHexChar (hexDigit n) = true := by
  unfold hexDigit
  split <;> decide

/-- `toHexPad` emits exactly the requested number of digits. -/
theorem toHexPad_length (n w : Nat) : (toHexPad n w).length = w := by
  induction w generalizing n with
  | zero => rfl
  | succ w ih => simp [toHexPad, ih]

/-- Every character `toHexPad` emits is a hexadecimal digit. -/
theorem toHexPad_all_hex (n w : Nat) : (toHexPad n w).all isHexChar = true := by
  induction w generalizing n with
  | zero => rfl
  | succ w ih => simp [toHexPad, List.all_append, ih, hexDigit_hex]

/-- Filtering retains only elements satisfying the predicate. -/
theorem all_filter_self {α : Type} (p : α → Bool) (l : List α) : (l.filter p).all p = true := by
  induction l with
  | nil => rfl
  | cons a l ih =>
      cases hpa : p a <;> simp [List.filter_cons, hpa, ih]

/-- Looking up a removed key yields nothing. -/
theorem alookup_aremove_self {α : Type} (p : String) (l : List (String × α)) :
    alookup p (aremove p l) = none := by
  induction l with
  | nil => rfl
  | cons e l ih =>
      cases he : e.1 == p <;> simp [aremove, List.filter_cons, he, alookup] <;>
        simpa [aremove] using ih

/-- Looking up a written file yields the written content. -/
theorem fsLookup_fsWrite_self (fs : Fs) (p : String) (c : List String) :
    fsLookup (fsWrite fs p c) p = some c := by
  simp [fsLookup, fsWrite, alookup]

/-- A deleted file is gone. -/
theorem fsLookup_fsDelete_self (fs : Fs) (p : String) :
    fsLookup (fsDelete fs p) p = none := by
  simpa [fsLookup, fsDelete] using alookup_aremove_self p fs.files

/-- A list is a prefix of itself extended. -/
theorem prefixOf_append (p r : List Char) : prefixOf p (p ++ r) = true := by
  induction p with
  | nil => rfl
  | cons a as ih => simp [prefixOf, ih]

/-- String append concatenates the character data. -/
theorem string_data_append (a b : String) : (a ++ b).data = a.data ++ b.data := by
  cases a; cases b; rfl

/-- Rebuilding a string from its own data is the identity. -/
theorem string_mk_data (s : String) : String.mk s.data = s := by
  cases s; rfl

/-! # Claim theorems -/

/-- C10: for every input record content, `compute_record_checksum` returns a
string of exactly 64 hexadecimal characters (a SHA-256-sized digest). -/
theorem record_checksum_is_64_hex (content : String) :
    (compute_record_checksum content).length = 64 ∧
    (compute_record_checksum content).data.all isHexChar = true := by
  unfold compute_record_checksum sha256hex
  constructor
  · simp [String.length, toHexPad_length]
  · simp [List.all_append, toHexPad_all_hex]

/-- C5: the record checksum is deterministic — field-wise equal Change
Record contents always yield identical checksums — and content-sensitive on
the tested fields: the two record contents exercised by
`test_record_checksum`, which differ in their id field, yield different
checksums. -/
theorem record_checksum_deterministic_content_sensitive :
    (∀ r1 r2 : ChangeRecord, r1 = r2 →
        compute_record_checksum (canonicalContent r1) =
          compute_record_checksum (canonicalContent r2)) ∧
    compute_record_checksum checksumTestA ≠ compute_record_checksum checksumTestB := by
  constructor
  · intro r1 r2 h
    rw [h]
  · decide

/-- Witness for C5 at a concrete record and the concrete tested pair. -/
theorem record_checksum_deterministic_witness :
    compute_record_checksum (canonicalContent wRec) =
      compute_record_checksum (canonicalContent wRec) ∧
    compute_record_checksum checksumTestA ≠ compute_record_checksum checksumTestB :=
  ⟨record_checksum_deterministic_content_sensitive.1 wRec wRec rfl,
   record_checksum_deterministic_content_sensitive.2⟩

/-- C3: repairing a journal with `n` valid and `m` invalid lines leaves
exactly `n` lines, all passing integrity verification, as a sublist of the
original journal (original relative order, original untouched lines hence
original ids); integrity verification fails before the repair whenever
`m > 0` and passes after it. -/
theorem repair_keeps_exactly_the_valid_lines (journal : List String) (n m : Nat)
    (hn : journal.countP lineValid = n)
    (hm : journal.countP (fun l => !(lineValid l)) = m) :
    (repair_state_files journal).length = n ∧
    verify_state_integrity (repair_state_files journal) = true ∧
    (repair_state_files journal).Sublist journal ∧
    (0 < m → verify_state_integrity journal = false) := by
  refine ⟨?_, ?_, ?_, ?_⟩
  · rw [← hn, repair_state_files, ← List.countP_eq_length_filter]
  · exact all_filter_self lineValid journal
  · exact List.filter_sublist journal
  · intro hm0
    rw [← hm] at hm0
    obtain ⟨a, ha, hna⟩ := List.countP_pos_iff.mp hm0
    apply Bool.eq_false_iff.mpr
    intro hall
    have := List.all_eq_true.mp hall a ha
    simp [this] at hna

/-- Witness for C3: the corrupted-middle-line journal of `test_state_repair`
(two valid lines around one invalid line). -/
theorem repair_keeps_exactly_the_valid_lines_witness :
    (repair_state_files wJournal).length = 2 ∧
    verify_state_integrity (repair_state_files wJournal) = true ∧
    (repair_state_files wJournal).Sublist wJournal ∧
    (0 < 1 → verify_state_integrity wJournal = false) :=
  repair_keeps_exactly_the_valid_lines wJournal 2 1 (by decide) (by decide)

/-- C4: each `record_change` appends exactly one line and returns the id
formatted from max-existing-plus-one (1 on an empty journal); recording
three changes sequentially from an empty journal returns `chg_0001`,
`chg_0002`, `chg_0003` in order, and the persisted journal holds exactly
three records whose first id is `chg_0001` and whose last is `chg_0003`. -/
theorem record_change_sequential_ids :
    (∀ (cat desc undo : String) (dflag : Bool) (sev pre post : String)
       (bks : List Backup) (journal : List String),
        (record_change cat desc undo dflag sev pre post bks journal).2.length
            = journal.length + 1 ∧
        (record_change cat desc undo dflag sev pre post bks journal).1
            = formatChangeId (nextChangeId journal)) ∧
    (rcS1.1 = "chg_0001" ∧ rcS2.1 = "chg_0002" ∧ rcS3.1 = "chg_0003" ∧
     rcS3.2.length = 3 ∧
     (rcS3.2.head?.bind parseRecord).map (fun r => formatChangeId r.id) = some "chg_0001" ∧
     (rcS3.2.getLast?.bind parseRecord).map (fun r => formatChangeId r.id) = some "chg_0003") := by
  constructor
  · intro cat desc undo dflag sev pre post bks journal
    exact ⟨by simp [record_change], rfl⟩
  · decide

/-- C1: dispatching a failing check that is registered for a manual fix
(no automated Fixer) records exactly one manual-required entry carrying the
supplied hint and bumps `FIX_MANUAL`; dispatching a failing check whose
identifier matches nothing bumps `FIX_SKIPPED` and never touches the
applied counter or the applied list (never silently counted as success). -/
theorem dispatch_manual_hint_unknown_skipped (st : DoctorState) (hint : String) :
    dispatch_fix "shell.ohmyzsh" "fail" hint st =
      { st with fixManual := st.fixManual + 1,
                fixesManual := st.fixesManual ++ ["shell.ohmyzsh" ++ "|" ++ hint] } ∧
    dispatch_fix "unknown.check.id" "fail" hint st =
      { st with fixSkipped := st.fixSkipped + 1 } ∧
    (dispatch_fix "unknown.check.id" "fail" hint st).fixApplied = st.fixApplied ∧
    (dispatch_fix "unknown.check.id" "fail" hint st).fixesApplied = st.fixesApplied := by
  have h1 : (("fail" == "pass") || ("fail" == "skip")) = false := by decide
  have h2 : prefixOf ("path.").data ("shell.ohmyzsh").data = false := by decide
  have h3 : "shell.ohmyzsh" ∈ manualChecks := by decide
  have h4 : prefixOf ("path.").data ("unknown.check.id").data = false := by decide
  have h5 : "unknown.check.id" ∉ manualChecks := by decide
  have h6 : (("shell.ohmyzsh" : String) == "shell.acfs_sourced") = false := by decide
  have h7 : (("unknown.check.id" : String) == "shell.acfs_sourced") = false := by decide
  refine ⟨?_, ?_, ?_, ?_⟩ <;> simp [dispatch_fix, h1, h2, h3, h4, h5, h6, h7]

/-- C2: in apply mode, a Fixer never mutates without a successful backup.
If the backup of an existing `.zshrc` fails, `fix_path_ordering` and
`fix_acfs_sourcing` leave the state completely untouched (and report the
error when the fix was actually needed); whenever `fix_path_ordering`
changes any file, either the target did not exist (backing up nothing is
valid) or a Backup Record of the target's pre-mutation content was retained;
and `fix_config_copy` only ever changes files when its destination did not
previously exist. -/
theorem no_mutation_without_successful_backup (st : DoctorState) (checkId src dest : String)
    (content : List String)
    (hdry : st.dryRun = false)
    (hz : fsLookup st.fs zshrcPath = some content)
    (hbf : zshrcPath ∈ st.fs.backupFail) :
    (fix_path_ordering checkId st).2 = st ∧
    (file_contains_line st.fs zshrcPath pathMarker = false →
        fix_path_ordering checkId st = (false, st)) ∧
    (fix_acfs_sourcing checkId st).2 = st ∧
    (∀ st2 : DoctorState, (fix_path_ordering checkId st2).2.fs.files ≠ st2.fs.files →
        fsLookup st2.fs zshrcPath = none ∨
        ∃ bk, bk ∈ (fix_path_ordering checkId st2).2.backups ∧ bk.source = zshrcPath ∧
          bk.checksum =
            compute_record_checksum (joinLines ((fsLookup st2.fs zshrcPath).getD []))) ∧
    (∀ st3 : DoctorState, (fix_config_copy checkId src dest st3).2.fs.files ≠ st3.fs.files →
        fsLookup st3.fs dest = none) := by
  refine ⟨?_, ?_, ?_, ?_, ?_⟩
  · cases hguard : file_contains_line st.fs zshrcPath pathMarker <;>
      simp [fix_path_ordering, hguard, hdry, create_backup, hz, hbf]
  · intro hguard
    simp [fix_path_ordering, hguard, hdry, create_backup, hz, hbf]
  · cases hg2 : file_contains_line st.fs zshrcPath acfsSourceLine
    · cases ha : fsLookup st.fs acfsZshrcPath <;>
        simp [fix_acfs_sourcing, hg2, ha, hdry, create_backup, hz, hbf]
    · simp [fix_acfs_sourcing, hg2]
  · intro st2 hne
    cases hguard : file_contains_line st2.fs zshrcPath pathMarker
    · cases hd : st2.dryRun
      · cases hz2 : fsLookup st2.fs zshrcPath with
        | none => exact Or.inl rfl
        | some c2 =>
          by_cases hbf2 : zshrcPath ∈ st2.fs.backupFail
          · exact absurd (by simp [fix_path_ordering, hguard, hd, create_backup, hz2, hbf2]) hne
          · refine Or.inr ⟨⟨zshrcPath, backupsDir ++ "zshrc",
              compute_record_checksum (joinLines c2)⟩, ?_, rfl, by simp⟩
            simp [fix_path_ordering, hguard, hd, create_backup, hz2, hbf2, applyFix]
      · exact absurd (by simp [fix_path_ordering, hguard, hd]) hne
    · exact absurd (by simp [fix_path_ordering, hguard]) hne
  · intro st3 hne
    cases hd3 : fsLookup st3.fs dest
    · rfl
    · exact absurd (by simp [fix_config_copy, hd3]) hne

/-- Witness for C2: the backup-failure state blocks the mutation. -/
theorem no_mutation_without_successful_backup_witness :
    (fix_path_ordering "path.ordering" wStateBackupFail).2 = wStateBackupFail ∧
    (file_contains_line wStateBackupFail.fs zshrcPath pathMarker = false →
        fix_path_ordering "path.ordering" wStateBackupFail = (false, wStateBackupFail)) ∧
    (fix_acfs_sourcing "shell.acfs_sourced" wStateBackupFail).2 = wStateBackupFail :=
  ⟨(no_mutation_without_successful_backup wStateBackupFail "path.ordering" "s" "d"
      ["# Initial zshrc"] (by decide) (by decide) (by decide)).1,
   (no_mutation_without_successful_backup wStateBackupFail "path.ordering" "s" "d"
      ["# Initial zshrc"] (by decide) (by decide) (by decide)).2.1,
   (no_mutation_without_successful_backup wStateBackupFail "shell.acfs_sourced" "s" "d"
      ["# Initial zshrc"] (by decide) (by decide) (by decide)).2.2.1⟩

/-- C6: in dry-run mode no Fixer changes the filesystem (no target content
change, no backup file), the journal (no Change Record) or the session
backups, regardless of outcome; and when the fix is actually needed (guard
unsatisfied, precondition met) exactly one dry-run preview entry is
recorded. -/
theorem dry_run_never_mutates (st : DoctorState) (checkId src dest target link : String)
    (hdry : st.dryRun = true) :
    ((fix_path_ordering checkId st).2.fs = st.fs ∧
     (fix_path_ordering checkId st).2.journal = st.journal ∧
     (fix_path_ordering checkId st).2.backups = st.backups) ∧
    ((fix_config_copy checkId src dest st).2.fs = st.fs ∧
     (fix_config_copy checkId src dest st).2.journal = st.journal ∧
     (fix_config_copy checkId src dest st).2.backups = st.backups) ∧
    ((fix_symlink_create checkId target link st).2.fs = st.fs ∧
     (fix_symlink_create checkId target link st).2.journal = st.journal ∧
     (fix_symlink_create checkId target link st).2.backups = st.backups) ∧
    ((fix_acfs_sourcing checkId st).2.fs = st.fs ∧
     (fix_acfs_sourcing checkId st).2.journal = st.journal ∧
     (fix_acfs_sourcing checkId st).2.backups = st.backups) ∧
    (file_contains_line st.fs zshrcPath pathMarker = false →
      (fix_path_ordering checkId st).2.fixesDryRun = st.fixesDryRun ++ [checkId]) ∧
    (fsLookup st.fs dest = none → (fsLookup st.fs src).isSome = true →
      (fix_config_copy checkId src dest st).2.fixesDryRun = st.fixesDryRun ++ [checkId]) ∧
    (fsLinkLookup st.fs link = none → (fsLookup st.fs target).isSome = true →
      (fix_symlink_create checkId target link st).2.fixesDryRun = st.fixesDryRun ++ [checkId]) ∧
    (file_contains_line st.fs zshrcPath acfsSourceLine = false →
      (fsLookup st.fs acfsZshrcPath).isSome = true →
      (fix_acfs_sourcing checkId st).2.fixesDryRun = st.fixesDryRun ++ [checkId]) := by
  refine ⟨?_, ?_, ?_, ?_, ?_, ?_, ?_, ?_⟩
  · cases hg : file_contains_line st.fs zshrcPath pathMarker <;>
      simp [fix_path_ordering, hg, hdry]
  · cases hd : fsLookup st.fs dest
    · cases hs : fsLookup st.fs src <;> simp [fix_config_copy, hd, hs, hdry]
    · simp [fix_config_copy, hd]
  · cases hl : fsLinkLookup st.fs link
    · cases ht : fsLookup st.fs target <;> simp [fix_symlink_create, hl, ht, hdry]
    · simp [fix_symlink_create, hl]
  · cases hg : file_contains_line st.fs zshrcPath acfsSourceLine
    · cases ha : fsLookup st.fs acfsZshrcPath <;> simp [fix_acfs_sourcing, hg, ha, hdry]
    · simp [fix_acfs_sourcing, hg]
  · intro hg
    simp [fix_path_ordering, hg, hdry]
  · intro hd hs
    obtain ⟨sc, hsc⟩ := Option.isSome_iff_exists.mp hs
    simp [fix_config_copy, hd, hsc, hdry]
  · intro hl ht
    obtain ⟨tc, htc⟩ := Option.isSome_iff_exists.mp ht
    simp [fix_symlink_create, hl, htc, hdry]
  · intro hg ha
    obtain ⟨ac, hac⟩ := Option.isSome_iff_exists.mp ha
    simp [fix_acfs_sourcing, hg, hac, hdry]

/-- Witness for C6: the full dry-run state, one fixer of each kind. -/
theorem dry_run_never_mutates_witness :
    (fix_path_ordering "path.ordering" wStateFullDry).2.fs = wStateFullDry.fs ∧
    (fix_config_copy "config.test" "source_config.txt" "missing_dest.txt"
        wStateFullDry).2.journal = wStateFullDry.journal ∧
    (fix_symlink_create "symlink.test" ".cargo/bin/test_tool" ".local/bin/test_tool"
        wStateFullDry).2.backups = wStateFullDry.backups ∧
    (fix_path_ordering "path.ordering" wStateFullDry).2.fixesDryRun =
      wStateFullDry.fixesDryRun ++ ["path.ordering"] :=
  ⟨(dry_run_never_mutates wStateFullDry "path.ordering" "source_config.txt" "missing_dest.txt"
      ".cargo/bin/test_tool" ".local/bin/test_tool" (by decide)).1.1,
   (dry_run_never_mutates wStateFullDry "config.test" "source_config.txt" "missing_dest.txt"
      ".cargo/bin/test_tool" ".local/bin/test_tool" (by decide)).2.1.2.1,
   (dry_run_never_mutates wStateFullDry "symlink.test" "source_config.txt" "missing_dest.txt"
      ".cargo/bin/test_tool" ".local/bin/test_tool" (by decide)).2.2.1.2.2,
   (dry_run_never_mutates wStateFullDry "path.ordering" "source_config.txt" "missing_dest.txt"
      ".cargo/bin/test_tool" ".local/bin/test_tool" (by decide)).2.2.2.2.1 (by decide)⟩

/-- C7: Fixers are idempotent under their guard. Applying
`fix_path_ordering` once to an unfixed `.zshrc` appends exactly one Change
Record and bumps `FIX_APPLIED` once; running it again on the resulting state
is a complete no-op (same state, so no file change, no further record, and
`FIX_APPLIED` unchanged — one record total across both runs). And
`fix_config_copy` against a destination that already holds (unrelated)
content leaves the whole state intact: zero Change Records, original content
preserved. -/
theorem fixer_idempotent_second_run_noop (st : DoctorState) (checkId src dest : String)
    (content dcontent : List String)
    (hdry : st.dryRun = false)
    (hz : fsLookup st.fs zshrcPath = some content)
    (hguard : file_contains_line st.fs zshrcPath pathMarker = false)
    (hbf : zshrcPath ∉ st.fs.backupFail)
    (hdest : fsLookup st.fs dest = some dcontent) :
    (fix_path_ordering checkId st).2.journal.length = st.journal.length + 1 ∧
    (fix_path_ordering checkId st).2.fixApplied = st.fixApplied + 1 ∧
    fix_path_ordering checkId (fix_path_ordering checkId st).2 =
      (true, (fix_path_ordering checkId st).2) ∧
    fix_config_copy checkId src dest st = (true, st) := by
  have hmark : containsSub pathMarkerLine.data pathMarker.data = true := by decide
  have hfix : fix_path_ordering checkId st = (true, applyFix st checkId
      (fsWrite (fsWrite st.fs (backupsDir ++ "zshrc") content) zshrcPath
        (content ++ ["", pathMarkerLine, pathExportLine]))
      (some { source := zshrcPath, backupPath := backupsDir ++ "zshrc",
              checksum := compute_record_checksum (joinLines content) })
      "path_ordering" "Ensure ~/.local/bin precedes PATH" "") := by
    simp [fix_path_ordering, hguard, hdry, create_backup, hz, hbf]
  have hg2 : file_contains_line (fix_path_ordering checkId st).2.fs zshrcPath pathMarker
      = true := by
    rw [hfix]
    simp [applyFix, file_contains_line, fsLookup_fsWrite_self, List.any_append, hmark]
  refine ⟨?_, ?_, ?_, ?_⟩
  · rw [hfix]
    simp [applyFix, record_change]
  · rw [hfix]
    simp [applyFix]
  · rw [hfix] at hg2 ⊢
    simp only [] at hg2
    simp [fix_path_ordering, hg2]
  · simp [fix_config_copy, hdest]

/-- Witness for C7: the full state with an unfixed `.zshrc` and an occupied
destination file. -/
theorem fixer_idempotent_second_run_noop_witness :
    (fix_path_ordering "path.ordering" wStateFull).2.journal.length =
      wStateFull.journal.length + 1 ∧
    fix_path_ordering "path.ordering" (fix_path_ordering "path.ordering" wStateFull).2 =
      (true, (fix_path_ordering "path.ordering" wStateFull).2) ∧
    fix_config_copy "config.test" "source_config.txt" "dest_existing.txt" wStateFull =
      (true, wStateFull) :=
  ⟨(fixer_idempotent_second_run_noop wStateFull "path.ordering" "source_config.txt"
      "dest_existing.txt" ["# Initial zshrc"] ["existing content"] (by decide) (by decide)
      (by decide) (by decide) (by decide)).1,
   (fixer_idempotent_second_run_noop wStateFull "path.ordering" "source_config.txt"
      "dest_existing.txt" ["# Initial zshrc"] ["existing content"] (by decide) (by decide)
      (by decide) (by decide) (by decide)).2.2.1,
   (fixer_idempotent_second_run_noop wStateFull "config.test" "source_config.txt"
      "dest_existing.txt" ["# Initial zshrc"] ["existing content"] (by decide) (by decide)
      (by decide) (by decide) (by decide)).2.2.2⟩

/-- C8: a Fixer whose precondition is unmet (missing copy source, missing
symlink target binary) returns an error and performs no mutation at all (no
destination file, no symlink — the state is untouched); and the dispatch
loop keeps going: dispatching a precondition-failing `shell.acfs_sourced`
check followed by a `path.ordering` check counts one failure, still applies
the second fix, and creates no symlink. -/
theorem precondition_error_no_mutation_loop_continues
    (st : DoctorState) (checkId src dest target link : String) (zcontent : List String)
    (hsrc : fsLookup st.fs src = none)
    (htgt : fsLookup st.fs target = none)
    (hlink : fsLinkLookup st.fs link = none)
    (hdest : fsLookup st.fs dest = none)
    (hacfs : fsLookup st.fs acfsZshrcPath = none)
    (hsline : file_contains_line st.fs zshrcPath acfsSourceLine = false)
    (hdry : st.dryRun = false)
    (hz : fsLookup st.fs zshrcPath = some zcontent)
    (hpguard : file_contains_line st.fs zshrcPath pathMarker = false)
    (hbf : zshrcPath ∉ st.fs.backupFail) :
    fix_config_copy checkId src dest st = (false, st) ∧
    fix_symlink_create checkId target link st = (false, st) ∧
    (dispatch_all [("shell.acfs_sourced", "fail", ""), ("path.ordering", "fail", "")] st).fixFailed
        = st.fixFailed + 1 ∧
    (dispatch_all [("shell.acfs_sourced", "fail", ""), ("path.ordering", "fail", "")] st).fixApplied
        = st.fixApplied + 1 ∧
    (dispatch_all [("shell.acfs_sourced", "fail", ""), ("path.ordering", "fail", "")] st).fs.links
        = st.fs.links := by
  have hr1 : (("fail" == "pass") || ("fail" == "skip")) = false := by decide
  have hr2 : prefixOf ("path.").data ("shell.acfs_sourced").data = false := by decide
  have hr3 : (("shell.acfs_sourced" : String) == "shell.acfs_sourced") = true := by decide
  have hr4 : prefixOf ("path.").data ("path.ordering").data = true := by decide
  refine ⟨?_, ?_, ?_, ?_, ?_⟩
  · simp [fix_config_copy, hdest, hsrc]
  · simp [fix_symlink_create, hlink, htgt]
  all_goals
    simp [dispatch_all, dispatch_fix, runCounted, hr1, hr2, hr3, hr4, fix_acfs_sourcing,
          fix_path_ordering, hsline, hacfs, hdry, hz, hpguard, hbf, create_backup,
          applyFix, fsWrite]

/-- Witness for C8: the plain state (only a `.zshrc`), missing sources. -/
theorem precondition_error_no_mutation_loop_continues_witness :
    fix_config_copy "config.test" "/nonexistent/source.txt" "dest.txt" wState =
      (false, wState) ∧
    fix_symlink_create "symlink.test" "/nonexistent/binary" ".local/bin/test_tool" wState =
      (false, wState) ∧
    (dispatch_all [("shell.acfs_sourced", "fail", ""), ("path.ordering", "fail", "")]
        wState).fixFailed = wState.fixFailed + 1 ∧
    (dispatch_all [("shell.acfs_sourced", "fail", ""), ("path.ordering", "fail", "")]
        wState).fixApplied = wState.fixApplied + 1 ∧
    (dispatch_all [("shell.acfs_sourced", "fail", ""), ("path.ordering", "fail", "")]
        wState).fs.links = wState.fs.links :=
  precondition_error_no_mutation_loop_continues wState "config.test" "/nonexistent/source.txt"
    "dest.txt" "/nonexistent/binary" ".local/bin/test_tool" ["# Initial zshrc"]
    (by decide) (by decide) (by decide) (by decide) (by decide) (by decide) (by decide)
    (by decide) (by decide) (by decide)

/-- C9: undoing a change whose non-empty `undo_command` deletes a marker
file, with `runUndoCommand = true`, succeeds and executes the recorded
command, so the marker file does not exist afterwards. -/
theorem undo_change_runs_recorded_command (fs : Fs) (journal : List String)
    (idStr marker : String) (r : ChangeRecord)
    (hfind : lookupRecord journal idStr = some r)
    (hcmd : r.undo_command = "rm -f \x27" ++ marker ++ "\x27")
    (hnb : r.backups = []) :
    (undo_change idStr true true fs journal).1 = true ∧
    fsLookup (undo_change idStr true true fs journal).2 marker = none := by
  have hne : (r.undo_command == "") = false := by
    apply beq_eq_false_iff_ne.mpr
    intro h
    have hd := congrArg String.data h
    rw [hcmd, string_data_append, string_data_append] at hd
    simp [List.append_eq_nil] at hd
  have hdata : (("rm -f \x27" ++ marker) ++ "\x27").data =
      ("rm -f ").data ++ (squote :: (marker.data ++ [squote])) := by
    have h1 : ("rm -f \x27").data = ("rm -f ").data ++ [squote] := by decide
    have h2 : ("\x27").data = [squote] := by decide
    rw [string_data_append, string_data_append, h1, h2, List.append_assoc]
    simp
  constructor
  · simp [undo_change, hfind]
  · have hstep : undo_change idStr true true fs journal =
        (true, execCommand r.undo_command fs) := by
      simp [undo_change, hfind, hnb, hne]
    rw [hstep]
    rw [hcmd]
    show fsLookup (execCommand (("rm -f \x27" ++ marker) ++ "\x27") fs) marker = none
    rw [execCommand]
    rw [hdata, prefixOf_append]
    rw [if_pos rfl]
    rw [show (6 : Nat) = ("rm -f ").data.length from rfl, List.drop_left]
    rw [stripQuotes]
    simp [List.getLast?_concat, List.dropLast_concat, string_mk_data, fsLookup_fsDelete_self]

/-- Witness for C9: the marker-file undo scenario of `test_undo_change`. -/
theorem undo_change_runs_recorded_command_witness :
    (undo_change "chg_0001" true true wUndoFs wUndoJournal).1 = true ∧
    fsLookup (undo_change "chg_0001" true true wUndoFs wUndoJournal).2 "marker.txt" = none :=
  undo_change_runs_recorded_command wUndoFs wUndoJournal "chg_0001" "marker.txt" wUndoRec
    (by decide) (by decide) (by decide)

end Acfs
